import Mathlib

/-!
Verification of the memory-coordination layer of the `super-bot-cleyton`
repository, shallowly embedded from the Python sources:

* `src/bot/memory/memory_manager.py` — `MemoryManager` (write path
  `add_message`, read paths `get_recent_messages`, `get_important_messages`,
  `get_relevant_context`, `get_context_messages`, maintenance
  `check_and_repair`, integrity check `_verify_integrity`);
* `src/bot/memory/chroma_manager.py` — `ChromaManager` singleton;
* `src/bot/database/db_init.py` — the `messages` table.

Modelling conventions:

* The SQLite `messages` table is a list of `Row` in rowid (insertion) order;
  `ORDER BY` clauses are modelled with `List.insertionSort` on the
  corresponding key (SQLite leaves the order of key-ties unspecified; the
  stable sort fixes one admissible order, and theorems about ordering only
  use tie-insensitive consequences or tie-free concrete inputs).
* The ChromaDB collection is a list of `VecEntry`.
* Wall-clock reads (`time.time()*1000`, `CURRENT_TIMESTAMP`,
  `datetime.now().isoformat()`) are modelled by a single `Nat`-valued clock
  parameter `now` passed to each operation; `Row.timestamp` stores that
  instant.
* External I/O outcomes (SQLite errors, ChromaDB add/query errors) are
  explicit `Bool`/outcome parameters: the Python code catches the
  corresponding exceptions, and each `except` branch is embedded as the
  branch taken when the outcome parameter says "failed".
* Python `float` distances are modelled as exact rationals `Rat`; no claim
  settled here depends on floating-point rounding.
* Python string operations are modelled on `List Char`: `str.lower()` by
  `Char.toLower` (ASCII-faithful), `str.split()` word counting and
  `str.strip()` by whitespace scans, and the `in` substring test by an
  explicit infix search.
-/

/-! ### Python string helpers -/

/-- `a.pyIsPre b` models "list `a` is a leading segment of list `b`"
(the base case of Python's substring test). -/
def pyIsPre : List Char → List Char → Bool
  | [], _ => true
  | _ :: _, [] => false
  | a :: as, b :: bs => a = b && pyIsPre as bs

/-- `pySubstr needle hay` models Python's `needle in hay` on strings
(contiguous-substring containment). -/
def pySubstr (needle : List Char) : List Char → Bool
  | [] => needle.isEmpty
  | b :: bs => pyIsPre needle (b :: bs) || pySubstr needle bs

/-- Python `str.lower()`; Lean's `Char.toLower` lowers the ASCII range,
which covers every comparison the categorizer performs. -/
def pyLower (s : String) : List Char :=
  s.toList.map Char.toLower

/-- Word counter behind Python's `len(content.split())`: counts maximal
runs of non-whitespace characters. The flag records whether the scan is
currently inside a word. -/
def countWordsAux : List Char → Bool → Nat
  | [], _ => 0
  | c :: cs, inw =>
    if c.isWhitespace then countWordsAux cs false
    else (if inw then 0 else 1) + countWordsAux cs true

/-- `len(s.split())` — the number of whitespace-separated words of `s`. -/
def pyWordCount (s : String) : Nat :=
  countWordsAux s.toList false

/-- Python `s.strip()` on the character list: drop leading and trailing
whitespace. -/
def pyStrip (s : String) : List Char :=
  ((s.toList.dropWhile Char.isWhitespace).reverse.dropWhile
    Char.isWhitespace).reverse

/-! ### Data model

`Row` is one SQLite `messages` row (db_init.py: columns id, user_id, role,
content, chat_id, timestamp, category, importance, embedding_id; the unused
`context_id`/`tokens` columns are omitted). `VecEntry` is one ChromaDB
document with its scalar-string metadata. -/

structure Row where
  id : Nat
  user_id : Int
  chat_id : Int
  role : String
  content : String
  category : String
  importance : Int
  timestamp : Nat
  embedding_id : Option String
  deriving DecidableEq, Repr

structure VecEntry where
  id : String
  document : String
  meta_user_id : String
  meta_chat_id : String
  meta_role : String
  meta_category : String
  meta_timestamp : String
  deriving DecidableEq, Repr

/-- Joint state of the two stores: the SQLite `messages` table in rowid
order (with the next AUTOINCREMENT id) and the ChromaDB `messages`
collection. -/
structure MemState where
  rows : List Row
  nextId : Nat
  chroma : List VecEntry
  deriving DecidableEq, Repr

/-- A context entry as returned by `get_context_messages`
(`{"role": ..., "content": ...}`). -/
structure Msg where
  role : String
  content : String
  deriving DecidableEq, Repr

/-- The rows of one `(user_id, chat_id)` partition, in rowid order —
`SELECT ... WHERE user_id = ? AND chat_id = ?`. -/
def partRows (st : MemState) (user_id chat_id : Int) : List Row :=
  st.rows.filter (fun r => r.user_id = user_id && r.chat_id = chat_id)

/-! ### Categorizer (`MemoryManager.categorize_message`) -/

/-- The `keywords` dict of `categorize_message`, in insertion order. -/
def keywordTable : List (String × List String) :=
  [("diario_obra", ["obra", "construção", "rdo", "diário", "canteiro"]),
   ("financeiro", ["pagamento", "custo", "orçamento", "valor", "preço", "fatura"]),
   ("cronograma", ["prazo", "agenda", "data", "cronograma", "atraso"]),
   ("tarefas", ["tarefa", "pendência", "atividade", "fazer", "pendente"]),
   ("tecnico", ["projeto", "engenharia", "especificação", "material", "técnico"]),
   ("importante", ["urgente", "crítico", "prioridade", "importante"])]

/-- `keywords['importante']` — the urgency keywords. -/
def urgencyWords : List String :=
  ["urgente", "crítico", "prioridade", "importante"]

/-- `any(word in content_lower for word in keywords['importante'])`. -/
def hasUrgency (content : String) : Bool :=
  urgencyWords.any (fun w => pySubstr w.toList (pyLower content))

/-- `MemoryManager.categorize_message` (memory_manager.py:532-575): the
local keyword heuristic. Messages of fewer than 5 words short-circuit to
`('geral', 2)`; otherwise importance is 4 when an urgency keyword occurs
in the lowercased content and 3 otherwise, and the category is the first
entry of `keywordTable` (skipping `'importante'`) with a keyword hit,
defaulting to `'geral'`. Total — the Python body cannot raise. -/
def categorize_message (content : String) : String × Int :=
  if pyWordCount content < 5 then ("geral", 2)
  else
    let contentLower := pyLower content
    let importance : Int := if hasUrgency content then 4 else 3
    match (keywordTable.filter (fun p => p.1 ≠ "importante")).find?
        (fun p => p.2.any (fun w => pySubstr w.toList contentLower)) with
    | some p => (p.1, importance)
    | none => ("geral", importance)

/-! ### Write path (`MemoryManager.add_message`) -/

/-- `embedding_id = f"msg_{user_id}_{int(time.time() * 1000)}"`
(memory_manager.py:285-286). `nowMs` is the wall-clock in milliseconds. -/
def genEmbeddingId (user_id : Int) (nowMs : Nat) : String :=
  "msg_" ++ toString user_id ++ "_" ++ toString nowMs

/-- The ChromaDB metadata `add_message` attaches (stringified scalars). -/
def entryOfMessage (user_id chat_id : Int) (role category : String)
    (eid content : String) (nowMs : Nat) : VecEntry :=
  { id := eid
    document := content
    meta_user_id := toString user_id
    meta_chat_id := toString chat_id
    meta_role := role
    meta_category := category
    meta_timestamp := toString nowMs }

/-- `MemoryManager.add_message` (memory_manager.py:256-332).

Outcome parameters embed the `try`/`except` structure: `insertOk` is the
SQLite `INSERT`, `indexOk` the `messages_collection.add`, `deleteOk` the
rollback `DELETE` issued in the `except` branch. Steps, as in the source:
generate `embedding_id` from `(user_id, nowMs)`; categorize when either of
`category`/`importance` is `None`; `INSERT` into SQLite (the row carries
`embedding_id` from the start); then `messages_collection.add`. Any failure
reaches the `except` branch, which runs
`DELETE FROM messages WHERE embedding_id = ?` (removing every row with the
generated id) and returns `None`; success returns the embedding id. -/
def add_message (insertOk indexOk deleteOk : Bool) (st : MemState)
    (user_id chat_id : Int) (content role : String)
    (category? : Option String) (importance? : Option Int)
    (nowMs : Nat) : Option String × MemState :=
  let embedding_id := genEmbeddingId user_id nowMs
  let (category, importance) :=
    match category?, importance? with
    | some c, some i => (c, i)
    | _, _ => categorize_message content
  let rollback : MemState → MemState := fun s =>
    if deleteOk then
      { s with rows := s.rows.filter (fun r => r.embedding_id ≠ some embedding_id) }
    else s
  if !insertOk then
    -- the INSERT raised: nothing was written; the except branch still
    -- attempts the DELETE (a no-op on rows of earlier calls only)
    (none, rollback st)
  else
    let row : Row :=
      { id := st.nextId
        user_id := user_id
        chat_id := chat_id
        role := role
        content := content
        category := category
        importance := importance
        timestamp := nowMs
        embedding_id := some embedding_id }
    let st1 : MemState := { st with rows := st.rows ++ [row], nextId := st.nextId + 1 }
    if indexOk then
      (some embedding_id,
        { st1 with chroma := st1.chroma ++
            [entryOfMessage user_id chat_id role category embedding_id content nowMs] })
    else
      (none, rollback st1)

/-! ### SQL ordering relations

`ORDER BY timestamp DESC` and `ORDER BY importance DESC, timestamp DESC`,
as total preorders usable with `List.insertionSort`. -/

/-- `ORDER BY timestamp DESC`: `a` comes no later than `b`. -/
def tsOrder (a b : Row) : Prop := b.timestamp ≤ a.timestamp

instance : DecidableRel tsOrder :=
  fun a b => inferInstanceAs (Decidable (b.timestamp ≤ a.timestamp))

instance : IsTotal Row tsOrder := ⟨fun a b => le_total b.timestamp a.timestamp⟩

instance : IsTrans Row tsOrder := ⟨fun _ _ _ h1 h2 => le_trans h2 h1⟩

/-- `ORDER BY importance DESC, timestamp DESC` (lexicographic). -/
def impOrder (a b : Row) : Prop :=
  b.importance < a.importance ∨
    (b.importance = a.importance ∧ b.timestamp ≤ a.timestamp)

instance : DecidableRel impOrder :=
  fun a b => inferInstanceAs (Decidable (b.importance < a.importance ∨
    (b.importance = a.importance ∧ b.timestamp ≤ a.timestamp)))

instance : IsTotal Row impOrder := by
  constructor
  intro a b
  rcases lt_trichotomy a.importance b.importance with h | h | h
  · exact Or.inr (Or.inl h)
  · rcases le_total b.timestamp a.timestamp with ht | ht
    · exact Or.inl (Or.inr ⟨h.symm, ht⟩)
    · exact Or.inr (Or.inr ⟨h, ht⟩)
  · exact Or.inl (Or.inl h)

instance : IsTrans Row impOrder := by
  constructor
  intro a b c hab hbc
  rcases hab with h1 | ⟨h1, h1'⟩ <;> rcases hbc with h2 | ⟨h2, h2'⟩
  · exact Or.inl (h2.trans h1)
  · exact Or.inl (lt_of_eq_of_lt h2 h1)
  · exact Or.inl (lt_of_lt_of_le h2 (le_of_eq h1))
  · exact Or.inr ⟨h2.trans h1, h2'.trans h1'⟩

/-- Python `list.sort(key=score, reverse=True)` on `(id, score)` pairs:
descending score. -/
def scoreOrder (a b : String × Rat) : Prop := b.2 ≤ a.2

instance : DecidableRel scoreOrder :=
  fun a b => inferInstanceAs (Decidable (b.2 ≤ a.2))

instance : IsTotal (String × Rat) scoreOrder := ⟨fun a b => le_total b.2 a.2⟩

instance : IsTrans (String × Rat) scoreOrder := ⟨fun _ _ _ h1 h2 => le_trans h2 h1⟩

/-! ### Read paths -/

/-- `MemoryManager.get_recent_messages` (memory_manager.py:414-441):
`SELECT ... WHERE user_id = ? AND chat_id = ? ORDER BY timestamp DESC
LIMIT ?`. The surrounding `try`/`except` turns any SQLite failure
(`dbFail = true`) into the empty list. The returned sequence is
newest-first; the source applies no reversal. -/
def get_recent_messages (dbFail : Bool) (st : MemState)
    (user_id chat_id : Int) (limit : Nat) : List Row :=
  if dbFail then []
  else (List.insertionSort tsOrder (partRows st user_id chat_id)).take limit

/-- `MemoryManager.get_important_messages` (memory_manager.py:443-477):
`... WHERE user_id = ? AND chat_id = ? AND importance >= ? ORDER BY
importance DESC, timestamp DESC LIMIT ?`; SQLite failures are caught and
yield `[]`. -/
def get_important_messages (dbFail : Bool) (st : MemState)
    (user_id chat_id : Int) (min_importance : Int) (limit : Nat) : List Row :=
  if dbFail then []
  else
    (List.insertionSort impOrder
      ((partRows st user_id chat_id).filter
        (fun r => min_importance ≤ r.importance))).take limit

/-- Outcome of the ChromaDB similarity query issued by
`get_relevant_context`: either the backend answers (ids with distances,
both for the single query text, so `results['ids'][0]` and
`results['distances'][0]`), or every attempt fails — including the
`reset_client` retries inside `_query_chromadb_with_retry`. -/
inductive QueryOutcome where
  | ok (ids : List String) (distances : List Rat)
  | fail
  deriving DecidableEq

/-- `MemoryManager._query_chromadb_with_retry` (memory_manager.py:220-254):
returns the backend's answer, or — after 3 attempts, each followed by a
client reset — the empty-but-well-formed result
`{"ids": [[]], "distances": [[]], "metadatas": [[]]}` instead of raising. -/
def query_chromadb_with_retry (outcome : QueryOutcome) :
    List String × List Rat :=
  match outcome with
  | .ok ids distances => (ids, distances)
  | .fail => ([], [])

/-- `MemoryManager.get_relevant_context` (memory_manager.py:115-218).

Returns `[]` for a missing/short query (`len(query.strip()) < 3`), for an
empty ChromaDB answer, when no id reaches `min_relevance_score`, or when
anything inside the `try` raises (`dbFail = true` makes the SQLite hydrate
raise; the final `except` returns `[]`). Otherwise: similarity
`1 - min(distance, 1)` per id, keep scores `≥ min_relevance_score`, sort by
score descending (stable), truncate to `limit`, and hydrate those ids from
SQLite (`embedding_id IN (...)`, optional age bound of `time_window`
minutes against the `now` clock, `ORDER BY importance DESC, timestamp
DESC`). When the backend reports no distances the ids are hydrated as
returned, without scoring or truncation, as in the source. -/
def get_relevant_context (dbFail : Bool) (outcome : QueryOutcome)
    (st : MemState) (query : String) (limit : Nat)
    (time_window : Nat) (min_relevance_score : Rat) (now : Nat) : List Row :=
  if query = "" || decide ((pyStrip query).length < 3) then []
  else
    let res := query_chromadb_with_retry outcome
    if res.1.isEmpty then []
    else if res.2.isEmpty then
      -- `if distances:` is false — hydrate the raw id list
      if dbFail then []
      else
        List.insertionSort impOrder
          (st.rows.filter (fun r =>
            (match r.embedding_id with
             | some e => res.1.contains e
             | none => false) &&
            (time_window = 0 || now ≤ r.timestamp + 60000 * time_window)))
    else
      let scores := res.2.map (fun d => 1 - min d 1)
      let withScores := (res.1.zip scores).filter
        (fun p => min_relevance_score ≤ p.2)
      if withScores.isEmpty then []
      else
        let eids := ((List.insertionSort scoreOrder withScores).map
          Prod.fst).take limit
        if dbFail then []
        else
          List.insertionSort impOrder
            (st.rows.filter (fun r =>
              (match r.embedding_id with
               | some e => eids.contains e
               | none => false) &&
              (time_window = 0 || now ≤ r.timestamp + 60000 * time_window)))

/-- `Config.MAX_CONTEXT_MESSAGES` default (config.py:48). -/
def MAX_CONTEXT_MESSAGES : Nat := 20

/-- `{"role": ..., "content": ...}` formatting of a ledger row. -/
def fmtRow (r : Row) : Msg := { role := r.role, content := r.content }

/-- The semantic-bucket loop of `get_context_messages`
(memory_manager.py:618-627): walk the hydrated rows, keep the first row of
each content not yet in `seen` (initially the recent contents), extending
`seen` as entries are kept. -/
def dedupSemantic (seen : List String) : List Row → List Msg
  | [] => []
  | r :: rs =>
    if seen.contains r.content then dedupSemantic seen rs
    else { role := r.role, content := r.content } ::
      dedupSemantic (r.content :: seen) rs

/-- The three buckets assembled by `get_context_messages`
(memory_manager.py:600-652): formatted Recent (`limit = context_limit //
2`, newest-first), Semantic (only when the query is non-empty and its
strip exceeds 2 characters; hydrated rows deduplicated against Recent and
against earlier semantic entries), formatted Important (`min_importance =
4`, `limit = context_limit // 4`, skipping contents already present in
Recent or Semantic). -/
def contextBuckets (dbFail : Bool) (outcome : QueryOutcome)
    (st : MemState) (user_id chat_id : Int) (query : String)
    (context_limit : Nat) (now : Nat) : List Msg × List Msg × List Msg :=
  let recent := get_recent_messages dbFail st user_id chat_id (context_limit / 2)
  let semantic :=
    if query ≠ "" ∧ 2 < (pyStrip query).length then
      dedupSemantic (recent.map Row.content)
        (get_relevant_context dbFail outcome st query (context_limit / 2)
          (60 * 24 * 7) (3 / 10) now)
    else []
  let important := get_important_messages dbFail st user_id chat_id 4
    (context_limit / 4)
  let recentSemContents := recent.map Row.content ++ semantic.map Msg.content
  (recent.map fmtRow,
   semantic,
   (important.filter (fun r => !recentSemContents.contains r.content)).map fmtRow)

/-- `MemoryManager.get_context_messages` (memory_manager.py:577-676): the
concatenation Recent ++ Semantic ++ Important of `contextBuckets`,
truncated to `context_limit` entries when longer
(`all_messages[:context_limit]`). No token accounting occurs anywhere in
the function. The outer `except` (lines 669-676) is unreachable here:
every sub-call catches its own failures and returns a list. -/
def get_context_messages (dbFail : Bool) (outcome : QueryOutcome)
    (st : MemState) (user_id chat_id : Int) (query : String)
    (context_limit? : Option Nat) (now : Nat) : List Msg :=
  let context_limit := context_limit?.getD MAX_CONTEXT_MESSAGES
  let b := contextBuckets dbFail outcome st user_id chat_id query context_limit now
  let all_messages := b.1 ++ b.2.1 ++ b.2.2
  if context_limit < all_messages.length then all_messages.take context_limit
  else all_messages

/-! ### Consistency audit and repair -/

/-- A ledger row in the "pending index" state:
`embedding_id IS NULL OR embedding_id = ''`. -/
def pendingRow (r : Row) : Bool :=
  r.embedding_id = none || r.embedding_id = some ""

/-- The comparison `_verify_integrity` performs
(memory_manager.py:66-96): total SQLite row count against the ChromaDB
collection count; a mismatch is logged as divergence (never raised). -/
def auditDiverged (st : MemState) : Bool :=
  st.rows.length != st.chroma.length

/-- `embedding_id = f"msg_{msg['user_id']}_{int(time.time()*1000)}_{msg['id']}"`
(memory_manager.py:707) — the repair path appends the row id, so ids of one
repair pass are pairwise distinct. -/
def repairId (r : Row) (nowMs : Nat) : String :=
  "msg_" ++ toString r.user_id ++ "_" ++ toString nowMs ++ "_" ++ toString r.id

/-- The ChromaDB entry `check_and_repair` writes for a pending row; the
source substitutes `'geral'` for a falsy category (SQL `NULL` is modelled
as the empty string). -/
def entryOfRepair (r : Row) (eid : String) (nowMs : Nat) : VecEntry :=
  { id := eid
    document := r.content
    meta_user_id := toString r.user_id
    meta_chat_id := toString r.chat_id
    meta_role := r.role
    meta_category := if r.category = "" then "geral" else r.category
    meta_timestamp := toString nowMs }

/-- Per-pass counters of `check_and_repair`; the source initializes
`checked` to 0 and never increments it. -/
structure RepairStats where
  checked : Nat
  repaired : Nat
  errors : Nat
  missing_embeddings : Nat
  deriving DecidableEq, Repr

/-- The row transformation of
`UPDATE messages SET embedding_id = ? WHERE id = ?` for the repair of
pending row `m`. -/
def repairUpd (m : Row) (nowMs : Nat) (r : Row) : Row :=
  if r.id = m.id then { r with embedding_id := some (repairId m nowMs) }
  else r

/-- One iteration of the repair loop over a pending row `msg`: on a
successful `messages_collection.add` (`addOk msg.id`), append the entry and
`UPDATE messages SET embedding_id = ? WHERE id = ?`; on failure, count the
error and continue with the next row. -/
def repairStep (addOk : Nat → Bool) (nowMs : Nat)
    (acc : RepairStats × MemState) (msg : Row) : RepairStats × MemState :=
  if addOk msg.id then
    ({ acc.1 with repaired := acc.1.repaired + 1 },
     { acc.2 with
        chroma := acc.2.chroma ++ [entryOfRepair msg (repairId msg nowMs) nowMs]
        rows := acc.2.rows.map (repairUpd msg nowMs) })
  else
    ({ acc.1 with errors := acc.1.errors + 1 }, acc.2)

/-- `MemoryManager.check_and_repair` (memory_manager.py:678-741): select up
to 100 rows with pending `embedding_id` (in rowid order), then run
`repairStep` over them. `addOk` gives each row's ChromaDB add outcome.
The outer `try` only fails if the initial SELECT does; a reachable-ledger
pass is modelled. -/
def check_and_repair (addOk : Nat → Bool) (st : MemState) (nowMs : Nat) :
    RepairStats × MemState :=
  let missing := (st.rows.filter pendingRow).take 100
  missing.foldl (repairStep addOk nowMs)
    ({ checked := 0, repaired := 0, errors := 0,
       missing_embeddings := missing.length }, st)

/-! ### ChromaManager singleton (chroma_manager.py) -/

/-- Class-level state of `ChromaManager`: whether
`ChromaManager._initialized` is set, and the persistence directory of the
live client, when one exists. -/
structure CMState where
  initialized : Bool
  clientDir : Option String
  deriving DecidableEq, Repr

/-- Process start: no instance, no client. -/
def cmFresh : CMState := { initialized := false, clientDir := none }

/-- `ChromaManager(persist_directory)` (chroma_manager.py:46-77):
`__new__` returns the one instance; `__init__` returns immediately when
`_initialized` is already set — the requested directory is then ignored —
and otherwise connects a client persisting to `persist_directory`. -/
def chromaManagerInit (st : CMState) (persist_directory : String) : CMState :=
  if st.initialized then st
  else { initialized := true, clientDir := some persist_directory }

/-- `ChromaManager.get_client(persist_directory)`
(chroma_manager.py:89-102): construct (or reuse) the singleton, return its
client; the second component is the directory the returned client
persists to. -/
def chromaManagerGetClient (st : CMState) (persist_directory : String) :
    CMState × Option String :=
  let st' := chromaManagerInit st persist_directory
  (st', st'.clientDir)

/-! ### Example states used by concrete counterexamples and witnesses -/

/-- Fresh deployment: empty ledger, empty collection. -/
def emptyState : MemState := { rows := [], nextId := 1, chroma := [] }

/-- Three user messages "a", "b", "c" recorded in that order for the
partition `(owner = 1, conversation = 1)`, at strictly increasing clock
instants, every write succeeding. -/
def exState3 : MemState :=
  (add_message true true true
    (add_message true true true
      (add_message true true true emptyState 1 1 "a" "user" none none
        1000).2
      1 1 "b" "user" none none 2000).2
    1 1 "c" "user" none none 3000).2

/-- Two important rows in partition `(1, 1)`: an older one of importance 5
and a newer one of importance 4. -/
def exImpState : MemState :=
  { rows :=
      [{ id := 1, user_id := 1, chat_id := 1, role := "user",
         content := "old critical", category := "geral", importance := 5,
         timestamp := 1000, embedding_id := some "msg_1_1000" },
       { id := 2, user_id := 1, chat_id := 1, role := "user",
         content := "new important", category := "geral", importance := 4,
         timestamp := 2000, embedding_id := some "msg_1_2000" }],
    nextId := 3,
    chroma :=
      [entryOfMessage 1 1 "user" "geral" "msg_1_1000" "old critical" 1000,
       entryOfMessage 1 1 "user" "geral" "msg_1_2000" "new important" 2000] }

/-! ## Claims -/

/-- Helper for C10: the importance component of the heuristic categorizer
is the three-way cascade of the source — `< 5` words short-circuits to 2,
then an urgency keyword gives 4, else 3. -/
theorem categorize_message_snd (content : String) :
    (categorize_message content).2 =
      if pyWordCount content < 5 then 2
      else if hasUrgency content then 4 else 3 := by
  unfold categorize_message
  by_cases h : pyWordCount content < 5
  · simp [h]
  · simp only [h, if_false]
    cases hfind : (keywordTable.filter (fun p => p.1 ≠ "importante")).find?
        (fun p => p.2.any (fun w => pySubstr w.toList (pyLower content))) <;>
      simp [hfind]

/-- C10: for every input string the heuristic categorizer terminates (it
is a total function) and returns an importance in {2, 3, 4}: exactly 2
below 5 words, 4 when (at 5+ words) an urgency keyword occurs, 3
otherwise; and an importance reaching the important bucket's threshold 4
implies an urgency keyword is present. -/
theorem categorize_message_importance (content : String) :
    ((categorize_message content).2 = 2 ∨ (categorize_message content).2 = 3 ∨
      (categorize_message content).2 = 4) ∧
    (pyWordCount content < 5 → (categorize_message content).2 = 2) ∧
    (5 ≤ pyWordCount content → hasUrgency content = true →
      (categorize_message content).2 = 4) ∧
    (5 ≤ pyWordCount content → hasUrgency content = false →
      (categorize_message content).2 = 3) ∧
    (4 ≤ (categorize_message content).2 → hasUrgency content = true) := by
  rw [categorize_message_snd]
  by_cases h : pyWordCount content < 5 <;> by_cases hu : hasUrgency content <;>
    simp [h, hu]

/-- Witness for C10 at a concrete 6-word urgent message. -/
theorem categorize_message_importance_witness :
    (categorize_message "esse problema parece muito urgente hoje").2 = 4 :=
  (categorize_message_importance "esse problema parece muito urgente hoje").2.2.1
    (by decide) (by decide)

/-- C8 counterexample: `ChromaManager` is a per-process singleton that
ignores the requested directory once initialized — after initializing with
`"dirA"`, requesting a client for `"dirB"` returns the connection that
persists to `"dirA"`, not one for `"dirB"`. -/
theorem chroma_manager_directory_counterexample :
    (chromaManagerGetClient (chromaManagerInit cmFresh "dirA") "dirB").2 =
      some "dirA" ∧
    (some "dirA" : Option String) ≠ some "dirB" := by decide

/-- C8 amended: the manager maintains at most one live connection per
process, not per directory: the first initialization fixes the
persistence directory, and every later request — whatever directory it
names — returns that same cached connection and leaves the state
unchanged. -/
theorem chroma_manager_one_connection_per_process (d1 d2 : String) :
    (chromaManagerGetClient cmFresh d1).2 = some d1 ∧
    (chromaManagerGetClient (chromaManagerGetClient cmFresh d1).1 d2).2 =
      some d1 ∧
    (chromaManagerGetClient (chromaManagerGetClient cmFresh d1).1 d2).1 =
      (chromaManagerGetClient cmFresh d1).1 := by
  simp [chromaManagerGetClient, chromaManagerInit, cmFresh]

/-- Helper: a ledger failure inside `get_relevant_context` is absorbed
into the empty list by the function's own `except` branch. -/
theorem get_relevant_context_dbFail (outcome : QueryOutcome)
    (st : MemState) (query : String) (limit time_window : Nat)
    (min_relevance_score : Rat) (now : Nat) :
    get_relevant_context true outcome st query limit time_window
      min_relevance_score now = [] := by
  unfold get_relevant_context
  cases outcome <;> simp [query_chromadb_with_retry]

/-- C5 counterexample: a ledger (SQLite) failure is not surfaced. On a
partition that does hold messages, a failing `get_recent_messages` returns
the plain empty list — indistinguishable from a successful read of an
empty ledger — instead of an error. -/
theorem ledger_failure_swallowed_counterexample :
    get_recent_messages true exState3 1 1 20 = [] ∧
    partRows exState3 1 1 ≠ [] ∧
    get_recent_messages true exState3 1 1 20 =
      get_recent_messages false emptyState 1 1 20 := by decide

/-- C5 amended: when the ledger is unavailable, every coordinator read
path catches the storage error and degrades to a normal empty result —
`get_recent_messages` and `get_important_messages` return `[]`, and
`get_context_messages` returns the empty context — rather than surfacing
an error to the caller. -/
theorem ledger_failure_yields_empty (st : MemState) (user_id chat_id : Int)
    (limit : Nat) (min_importance : Int) (outcome : QueryOutcome)
    (query : String) (context_limit? : Option Nat) (now : Nat) :
    get_recent_messages true st user_id chat_id limit = [] ∧
    get_important_messages true st user_id chat_id min_importance limit = [] ∧
    get_context_messages true outcome st user_id chat_id query
      context_limit? now = [] := by
  refine ⟨rfl, rfl, ?_⟩
  unfold get_context_messages contextBuckets
  simp [get_relevant_context_dbFail, get_recent_messages,
    get_important_messages, dedupSemantic]

/-- C6 (code bug): `add_message` derives the vectorId from wall-clock
milliseconds only (`msg_{user_id}_{ms}`), so two calls by the same owner
within the same millisecond generate the identical id, and — the
`messages` table having no uniqueness constraint on `embedding_id` — the
ledger then holds two rows with the same vectorId. Evaluated here at the
failing input: two writes for owner 1 at clock 1000. -/
theorem same_millisecond_vectorId_collision :
    (add_message true true true
        (add_message true true true emptyState 1 1 "primeira mensagem"
          "user" (some "geral") (some 3) 1000).2
        1 1 "segunda mensagem" "user" (some "geral") (some 3)
        1000).2.rows.map Row.embedding_id =
      [some (genEmbeddingId 1 1000), some (genEmbeddingId 1 1000)] ∧
    ((add_message true true true
        (add_message true true true emptyState 1 1 "primeira mensagem"
          "user" (some "geral") (some 3) 1000).2
        1 1 "segunda mensagem" "user" (some "geral") (some 3)
        1000).2.rows.filter
      (fun r => r.embedding_id = some (genEmbeddingId 1 1000))).length =
      2 := by decide

/-- C1: when the ledger insert succeeded and the vector-index write then
fails, `add_message` deletes the just-inserted row (by the generated
embedding id) and reports failure by returning `None`; provided no earlier
row carries that id (the id is fresh), the ledger and the index are left
exactly as before the call. -/
theorem add_message_rollback_on_index_failure (st : MemState)
    (user_id chat_id : Int) (content role : String)
    (category? : Option String) (importance? : Option Int) (nowMs : Nat)
    (hfresh : ∀ r ∈ st.rows,
      r.embedding_id ≠ some (genEmbeddingId user_id nowMs)) :
    (add_message true false true st user_id chat_id content role category?
      importance? nowMs).1 = none ∧
    (add_message true false true st user_id chat_id content role category?
      importance? nowMs).2.rows = st.rows ∧
    (add_message true false true st user_id chat_id content role category?
      importance? nowMs).2.chroma = st.chroma := by
  unfold add_message
  simp only [Bool.not_true, Bool.false_eq_true, if_false, if_true]
  refine ⟨trivial, ?_, trivial⟩
  simp only [List.filter_append]
  rw [List.filter_eq_self.mpr, List.filter_cons, List.filter_nil]
  · simp
  · intro r hr
    simpa using hfresh r hr

/-- Witness for C1: a failing index write on the empty state rolls the
ledger back to empty and returns `None`. -/
theorem add_message_rollback_on_index_failure_witness :
    (add_message true false true emptyState 1 1 "hello world" "user"
      (some "geral") (some 3) 1000).1 = none ∧
    (add_message true false true emptyState 1 1 "hello world" "user"
      (some "geral") (some 3) 1000).2.rows = emptyState.rows ∧
    (add_message true false true emptyState 1 1 "hello world" "user"
      (some "geral") (some 3) 1000).2.chroma = emptyState.chroma :=
  add_message_rollback_on_index_failure emptyState 1 1 "hello world" "user"
    (some "geral") (some 3) 1000 (by decide)

/-- Shared helper: every element kept by a sort-then-truncate query
dominates, in the query's order, every matching row the truncation left
out. -/
theorem sortedTake_dominates {r : Row → Row → Prop} [DecidableRel r]
    [IsTotal Row r] [IsTrans Row r] (l : List Row) (n : Nat) (y : Row)
    (hy : y ∈ l) (hny : y ∉ (List.insertionSort r l).take n) :
    ∀ x ∈ (List.insertionSort r l).take n, r x y := by
  intro x hx
  have hyL : y ∈ List.insertionSort r l :=
    (List.perm_insertionSort r l).mem_iff.mpr hy
  have hsorted : List.Pairwise r (List.insertionSort r l) :=
    List.sorted_insertionSort r l
  have hsplit := List.take_append_drop n (List.insertionSort r l)
  rw [← hsplit] at hsorted hyL
  rcases List.mem_append.mp hyL with h | h
  · exact absurd h hny
  · exact (List.pairwise_append.mp hsorted).2.2 x hx y h

/-- C3 counterexample: after recording "a", "b", "c" in that order for
partition (1, 1), `get_recent_messages` with limit 3 returns them
newest-first — `["c", "b", "a"]`, not the claimed `["a", "b", "c"]`
(the source selects `ORDER BY timestamp DESC` and applies no reversal). -/
theorem queryRecent_newest_first_counterexample :
    (get_recent_messages false exState3 1 1 3).map Row.content =
      ["c", "b", "a"] ∧
    (get_recent_messages false exState3 1 1 3).map Row.content ≠
      ["a", "b", "c"] := by decide

/-- C3 amended: `get_recent_messages` returns the up-to-limit most recent
rows of the partition, ordered newest-first in the returned sequence:
the result has `min limit size` entries, is sorted by descending
timestamp, draws only from the partition, and every partition row left
out is no newer than any returned row. -/
theorem get_recent_messages_newest_first (st : MemState)
    (user_id chat_id : Int) (limit : Nat) :
    (get_recent_messages false st user_id chat_id limit).length =
      min limit (partRows st user_id chat_id).length ∧
    List.Sorted tsOrder (get_recent_messages false st user_id chat_id limit) ∧
    (∀ x ∈ get_recent_messages false st user_id chat_id limit,
       x ∈ partRows st user_id chat_id) ∧
    (∀ y ∈ partRows st user_id chat_id,
       y ∉ get_recent_messages false st user_id chat_id limit →
       ∀ x ∈ get_recent_messages false st user_id chat_id limit,
         y.timestamp ≤ x.timestamp) := by
  unfold get_recent_messages
  simp only [Bool.false_eq_true, if_false]
  refine ⟨?_, ?_, ?_, ?_⟩
  · rw [List.length_take, (List.perm_insertionSort tsOrder _).length_eq]
  · exact List.Pairwise.sublist (List.take_sublist _ _)
      (List.sorted_insertionSort tsOrder _)
  · intro x hx
    exact (List.perm_insertionSort tsOrder _).mem_iff.mp
      (List.mem_of_mem_take hx)
  · intro y hy hny x hx
    exact sortedTake_dominates _ _ y hy hny x hx

/-- Witness for C3 amended at the concrete three-message state. -/
theorem get_recent_messages_newest_first_witness :
    (get_recent_messages false exState3 1 1 2).length =
      min 2 (partRows exState3 1 1).length :=
  (get_recent_messages_newest_first exState3 1 1 2).1

/-- C9 counterexample: `get_important_messages` sorts by `importance DESC,
timestamp DESC`, not by timestamp alone. With an older importance-5 row and
a newer importance-4 row, the result comes back `[1000, 2000]` by
timestamp — the newest row is second, so the sequence is not
newest-first. -/
theorem queryImportant_order_counterexample :
    (get_important_messages false exImpState 1 1 4 10).map Row.timestamp =
      [1000, 2000] ∧
    ¬ List.Sorted tsOrder (get_important_messages false exImpState 1 1 4 10) := by
  decide

/-- C9 amended: `get_important_messages` returns up to `limit` partition
rows of importance ≥ `min_importance`, ordered by importance descending
with timestamp-descending tie-break (the source's `ORDER BY importance
DESC, timestamp DESC`), newest-first only within one importance level. -/
theorem get_important_messages_order (st : MemState)
    (user_id chat_id : Int) (min_importance : Int) (limit : Nat) :
    List.Sorted impOrder
      (get_important_messages false st user_id chat_id min_importance limit) ∧
    (∀ x ∈ get_important_messages false st user_id chat_id min_importance
        limit, x ∈ partRows st user_id chat_id ∧
        min_importance ≤ x.importance) ∧
    (get_important_messages false st user_id chat_id min_importance
        limit).length =
      min limit ((partRows st user_id chat_id).filter
        (fun r => decide (min_importance ≤ r.importance))).length := by
  unfold get_important_messages
  simp only [Bool.false_eq_true, if_false]
  refine ⟨?_, ?_, ?_⟩
  · exact List.Pairwise.sublist (List.take_sublist _ _)
      (List.sorted_insertionSort impOrder _)
  · intro x hx
    have hmem := (List.perm_insertionSort impOrder _).mem_iff.mp
      (List.mem_of_mem_take hx)
    rcases List.mem_filter.mp hmem with ⟨h1, h2⟩
    exact ⟨h1, of_decide_eq_true h2⟩
  · rw [List.length_take, (List.perm_insertionSort impOrder _).length_eq]

/-- Witness for C9 amended at the concrete two-row state. -/
theorem get_important_messages_order_witness :
    (get_important_messages false exImpState 1 1 4 10).length =
      min 10 ((partRows exImpState 1 1).filter
        (fun r => decide ((4 : Int) ≤ r.importance))).length :=
  (get_important_messages_order exImpState 1 1 4 10).2.2

/-- Shared helper: `get_context_messages` unfolded to its final
count-truncation step (definitional). -/
theorem get_context_messages_def (dbFail : Bool) (outcome : QueryOutcome)
    (st : MemState) (user_id chat_id : Int) (query : String)
    (context_limit? : Option Nat) (now : Nat) :
    get_context_messages dbFail outcome st user_id chat_id query
        context_limit? now =
      if context_limit?.getD MAX_CONTEXT_MESSAGES <
          ((contextBuckets dbFail outcome st user_id chat_id query
              (context_limit?.getD MAX_CONTEXT_MESSAGES) now).1 ++
            (contextBuckets dbFail outcome st user_id chat_id query
              (context_limit?.getD MAX_CONTEXT_MESSAGES) now).2.1 ++
            (contextBuckets dbFail outcome st user_id chat_id query
              (context_limit?.getD MAX_CONTEXT_MESSAGES) now).2.2).length then
        ((contextBuckets dbFail outcome st user_id chat_id query
            (context_limit?.getD MAX_CONTEXT_MESSAGES) now).1 ++
          (contextBuckets dbFail outcome st user_id chat_id query
            (context_limit?.getD MAX_CONTEXT_MESSAGES) now).2.1 ++
          (contextBuckets dbFail outcome st user_id chat_id query
            (context_limit?.getD MAX_CONTEXT_MESSAGES) now).2.2).take
          (context_limit?.getD MAX_CONTEXT_MESSAGES)
      else
        ((contextBuckets dbFail outcome st user_id chat_id query
            (context_limit?.getD MAX_CONTEXT_MESSAGES) now).1 ++
          (contextBuckets dbFail outcome st user_id chat_id query
            (context_limit?.getD MAX_CONTEXT_MESSAGES) now).2.1 ++
          (contextBuckets dbFail outcome st user_id chat_id query
            (context_limit?.getD MAX_CONTEXT_MESSAGES) now).2.2) := rfl

/-- C2 counterexample: `get_context_messages` enforces no token budget.
On the three-message state, with the token counter "length of content" and
a budget of 1 token, the returned context's token total exceeds the
budget — the claimed budget-respect property fails. -/
theorem get_context_token_budget_counterexample :
    ¬ (((get_context_messages false QueryOutcome.fail exState3 1 1 ""
          none 5000).map (fun m => m.content.length)).sum ≤ 1) := by decide

/-- C2 amended: `get_context_messages` truncates the priority-ordered
concatenation Recent ++ Semantic ++ Important by message count, to the
first `context_limit` entries (`Config.MAX_CONTEXT_MESSAGES` when the
caller passes no limit); no token counter is consulted, so only the entry
count — never the token total — is bounded. -/
theorem get_context_messages_count_truncation (dbFail : Bool)
    (outcome : QueryOutcome) (st : MemState) (user_id chat_id : Int)
    (query : String) (context_limit? : Option Nat) (now : Nat) :
    get_context_messages dbFail outcome st user_id chat_id query
        context_limit? now =
      ((contextBuckets dbFail outcome st user_id chat_id query
          (context_limit?.getD MAX_CONTEXT_MESSAGES) now).1 ++
        (contextBuckets dbFail outcome st user_id chat_id query
          (context_limit?.getD MAX_CONTEXT_MESSAGES) now).2.1 ++
        (contextBuckets dbFail outcome st user_id chat_id query
          (context_limit?.getD MAX_CONTEXT_MESSAGES) now).2.2).take
        (context_limit?.getD MAX_CONTEXT_MESSAGES) ∧
    (get_context_messages dbFail outcome st user_id chat_id query
        context_limit? now).length ≤
      context_limit?.getD MAX_CONTEXT_MESSAGES := by
  rw [get_context_messages_def]
  by_cases h : context_limit?.getD MAX_CONTEXT_MESSAGES <
      ((contextBuckets dbFail outcome st user_id chat_id query
          (context_limit?.getD MAX_CONTEXT_MESSAGES) now).1 ++
        (contextBuckets dbFail outcome st user_id chat_id query
          (context_limit?.getD MAX_CONTEXT_MESSAGES) now).2.1 ++
        (contextBuckets dbFail outcome st user_id chat_id query
          (context_limit?.getD MAX_CONTEXT_MESSAGES) now).2.2).length
  · rw [if_pos h]
    exact ⟨rfl, by rw [List.length_take]; exact min_le_left _ _⟩
  · rw [if_neg h]
    have hle := Nat.le_of_not_lt h
    exact ⟨(List.take_of_length_le hle).symm, hle⟩

/-- Helper: with every index query failing (even after resets), the
semantic pipeline returns the empty list instead of raising. -/
theorem get_relevant_context_fail_outcome (dbFail : Bool) (st : MemState)
    (query : String) (limit time_window : Nat) (min_relevance_score : Rat)
    (now : Nat) :
    get_relevant_context dbFail QueryOutcome.fail st query limit
      time_window min_relevance_score now = [] := by
  unfold get_relevant_context query_chromadb_with_retry
  simp

/-- Helper: under a total index outage the buckets are those of a
semantic-free call — the semantic bucket degenerates to `[]` exactly as
for an empty query. -/
theorem contextBuckets_fail_eq (st : MemState) (user_id chat_id : Int)
    (query : String) (context_limit now : Nat) :
    contextBuckets false QueryOutcome.fail st user_id chat_id query
        context_limit now =
      contextBuckets false QueryOutcome.fail st user_id chat_id ""
        context_limit now := by
  unfold contextBuckets
  simp [get_relevant_context_fail_outcome, dedupSemantic]

/-- Helper: a successful recent-read of a non-empty partition with a
positive limit is non-empty. -/
theorem get_recent_messages_ne_nil (st : MemState) (user_id chat_id : Int)
    (limit : Nat) (hlim : 1 ≤ limit)
    (hpart : partRows st user_id chat_id ≠ []) :
    get_recent_messages false st user_id chat_id limit ≠ [] := by
  unfold get_recent_messages
  simp only [Bool.false_eq_true, if_false]
  intro h
  have hlen := congrArg List.length h
  rw [List.length_take, (List.perm_insertionSort tsOrder _).length_eq] at hlen
  simp only [List.length_nil] at hlen
  rcases Nat.min_eq_zero_iff.mp hlen with h0 | h0
  · omega
  · exact hpart (List.length_eq_zero.mp h0)

/-- C4: with a valid query (non-empty, ≥ 3 characters after stripping) and
every vector-index query failing even after connection resets,
`get_context_messages` does not raise (it is a total function), returns
exactly the assembly a semantic-free call would produce — Recent and
Important only — and is non-empty whenever the partition holds recent
messages (and the limit admits at least one recent entry). -/
theorem get_context_degrades_on_index_outage (st : MemState)
    (user_id chat_id : Int) (query : String) (cl now : Nat)
    (_hq : query ≠ "" ∧ 2 < (pyStrip query).length)
    (hcl : 2 ≤ cl)
    (hpart : partRows st user_id chat_id ≠ []) :
    get_context_messages false QueryOutcome.fail st user_id chat_id query
        (some cl) now =
      get_context_messages false QueryOutcome.fail st user_id chat_id ""
        (some cl) now ∧
    get_context_messages false QueryOutcome.fail st user_id chat_id query
        (some cl) now ≠ [] := by
  have hfst : (contextBuckets false QueryOutcome.fail st user_id chat_id
      query cl now).1 =
      (get_recent_messages false st user_id chat_id (cl / 2)).map fmtRow := rfl
  have hrecne : (contextBuckets false QueryOutcome.fail st user_id chat_id
      query cl now).1 ≠ [] := by
    rw [hfst]
    intro h
    exact get_recent_messages_ne_nil st user_id chat_id (cl / 2)
      (by omega) hpart (List.map_eq_nil_iff.mp h)
  have hAne : ((contextBuckets false QueryOutcome.fail st user_id chat_id
      query cl now).1 ++
      (contextBuckets false QueryOutcome.fail st user_id chat_id query cl
        now).2.1 ++
      (contextBuckets false QueryOutcome.fail st user_id chat_id query cl
        now).2.2) ≠ [] := by
    intro h
    rcases List.append_eq_nil.mp h with ⟨h1, _⟩
    rcases List.append_eq_nil.mp h1 with ⟨h2, _⟩
    exact hrecne h2
  constructor
  · rw [get_context_messages_def, get_context_messages_def,
      contextBuckets_fail_eq]
  · rw [get_context_messages_def]
    simp only [Option.getD_some]
    by_cases h : cl < ((contextBuckets false QueryOutcome.fail st user_id
        chat_id query cl now).1 ++
        (contextBuckets false QueryOutcome.fail st user_id chat_id query cl
          now).2.1 ++
        (contextBuckets false QueryOutcome.fail st user_id chat_id query cl
          now).2.2).length
    · rw [if_pos h]
      intro hnil
      rcases List.take_eq_nil_iff.mp hnil with h0 | h0
      · omega
      · exact hAne h0
    · rw [if_neg h]
      exact hAne

/-- Witness for C4 at the three-message state with query "hello". -/
theorem get_context_degrades_on_index_outage_witness :
    get_context_messages false QueryOutcome.fail exState3 1 1 "hello"
      (some 20) 5000 ≠ [] :=
  (get_context_degrades_on_index_outage exState3 1 1 "hello" 20 5000
    (by decide) (by decide) (by decide)).2

/-- Helper: a repair-generated embedding id is never the empty string, so
a repaired row is no longer pending. -/
theorem repairId_ne_empty (r : Row) (nowMs : Nat) : repairId r nowMs ≠ "" := by
  unfold repairId
  intro h
  have hl : ("msg_" ++ toString r.user_id ++ "_" ++ toString nowMs ++ "_" ++
      toString r.id).length = (0 : Nat) := by rw [h]; rfl
  simp only [String.length_append] at hl
  have h4 : ("msg_").length = 4 := rfl
  omega

/-- Helper: the repair pass's success counter — each selected row is
handled independently, every success incrementing `repaired`, and no
failure stops the fold. -/
theorem repair_foldl_repaired (f : Nat → Bool) (nowMs : Nat) :
    ∀ (ms : List Row) (acc : RepairStats × MemState),
    (ms.foldl (repairStep f nowMs) acc).1.repaired =
      acc.1.repaired + (ms.filter (fun m => f m.id)).length
  | [], acc => by simp
  | m :: ms, acc => by
    rw [List.foldl_cons, repair_foldl_repaired f nowMs ms _]
    by_cases hm : f m.id <;>
      simp [repairStep, hm, List.filter_cons, Nat.add_assoc, Nat.add_comm]

/-- Helper: the repair pass's error counter — every failure increments
`errors` and the fold continues. -/
theorem repair_foldl_errors (f : Nat → Bool) (nowMs : Nat) :
    ∀ (ms : List Row) (acc : RepairStats × MemState),
    (ms.foldl (repairStep f nowMs) acc).1.errors =
      acc.1.errors + (ms.filter (fun m => !f m.id)).length
  | [], acc => by simp
  | m :: ms, acc => by
    rw [List.foldl_cons, repair_foldl_errors f nowMs ms _]
    by_cases hm : f m.id <;>
      simp [repairStep, hm, List.filter_cons, Nat.add_assoc, Nat.add_comm]

/-- Helper: the ledger evolution of the repair fold, projected away from
the counters and the collection. -/
theorem repair_foldl_rows (f : Nat → Bool) (nowMs : Nat) (ms : List Row)
    (acc : RepairStats × MemState) :
    (ms.foldl (repairStep f nowMs) acc).2.rows =
      ms.foldl (fun rows m =>
        if f m.id then rows.map (repairUpd m nowMs) else rows) acc.2.rows := by
  induction ms generalizing acc with
  | nil => rfl
  | cons m ms ih =>
    simp only [List.foldl_cons]
    rw [ih]
    congr 1
    by_cases hm : f m.id <;> simp [repairStep, hm]

/-- Helper: the collection gains exactly one entry per successful add. -/
theorem repair_foldl_chroma_len (f : Nat → Bool) (nowMs : Nat) :
    ∀ (ms : List Row) (acc : RepairStats × MemState),
    (ms.foldl (repairStep f nowMs) acc).2.chroma.length =
      acc.2.chroma.length + (ms.filter (fun m => f m.id)).length
  | [], acc => by simp
  | m :: ms, acc => by
    rw [List.foldl_cons, repair_foldl_chroma_len f nowMs ms _]
    by_cases hm : f m.id <;>
      simp [repairStep, hm, List.filter_cons, Nat.add_assoc, Nat.add_comm]

/-- Helper: the all-successful repair fold never inserts or deletes
ledger rows. -/
theorem repair_rowsFold_length (nowMs : Nat) :
    ∀ (ms : List Row) (rows : List Row),
    (ms.foldl (fun rows m => rows.map (repairUpd m nowMs)) rows).length =
      rows.length
  | [], _ => rfl
  | m :: ms, rows => by
    rw [List.foldl_cons, repair_rowsFold_length nowMs ms _,
      List.length_map]

/-- Helper: after an all-successful repair fold whose batch covers the id
of every pending row, no row is pending any more. -/
theorem repair_pending_elim (nowMs : Nat) (ms : List Row) (rows : List Row)
    (h : ∀ r ∈ rows, pendingRow r = true → r.id ∈ ms.map Row.id) :
    ∀ r' ∈ ms.foldl (fun rows m => rows.map (repairUpd m nowMs)) rows,
      pendingRow r' = false := by
  induction ms generalizing rows with
  | nil =>
    intro r' hr'
    simp only [List.foldl_nil] at hr'
    by_cases hp : pendingRow r' = true
    · exact absurd (h r' hr' hp) (by simp)
    · exact Bool.not_eq_true _ |>.mp hp
  | cons m ms ih =>
    intro r' hr'
    simp only [List.foldl_cons] at hr'
    refine ih (rows.map (repairUpd m nowMs)) ?_ r' hr'
    intro r hr hp
    rcases List.mem_map.mp hr with ⟨r0, hr0, rfl⟩
    unfold repairUpd at hp ⊢
    by_cases hid : r0.id = m.id
    · exfalso
      rw [if_pos hid] at hp
      unfold pendingRow at hp
      simp only [Bool.or_eq_true, decide_eq_true_eq] at hp
      rcases hp with hp | hp
      · exact Option.some_ne_none _ hp
      · exact repairId_ne_empty m nowMs (Option.some.inj hp)
    · rw [if_neg hid] at hp ⊢
      have hmem := h r0 hr0 hp
      simp only [List.map_cons, List.mem_cons] at hmem
      rcases hmem with heq | hmem
      · exact absurd heq hid
      · exact hmem

/-- C7: with N ≤ 100 pending rows and a healthy index (every add
succeeds), one `check_and_repair` pass re-indexes every pending row:
afterwards the pending count is 0, `repaired = N`, `errors = 0`, the
ledger row count is unchanged, the collection gains exactly N entries,
and — when the only divergence was those N missing entries — the audit
comparison reports no divergence. Moreover, for an arbitrary per-row
outcome, each selected row is handled independently: successes and
failures are counted row by row and a failure never aborts the batch. -/
theorem check_and_repair_convergence (st : MemState) (nowMs : Nat)
    (hN : (st.rows.filter pendingRow).length ≤ 100) :
    ((check_and_repair (fun _ => true) st nowMs).2.rows.filter
      pendingRow).length = 0 ∧
    (check_and_repair (fun _ => true) st nowMs).1.repaired =
      (st.rows.filter pendingRow).length ∧
    (check_and_repair (fun _ => true) st nowMs).1.errors = 0 ∧
    (check_and_repair (fun _ => true) st nowMs).2.rows.length =
      st.rows.length ∧
    (check_and_repair (fun _ => true) st nowMs).2.chroma.length =
      st.chroma.length + (st.rows.filter pendingRow).length ∧
    (st.chroma.length + (st.rows.filter pendingRow).length =
        st.rows.length →
      auditDiverged (check_and_repair (fun _ => true) st nowMs).2 = false) ∧
    (∀ f : Nat → Bool,
      (check_and_repair f st nowMs).1.repaired =
        (((st.rows.filter pendingRow).take 100).filter
          (fun m => f m.id)).length ∧
      (check_and_repair f st nowMs).1.errors =
        (((st.rows.filter pendingRow).take 100).filter
          (fun m => !f m.id)).length) := by
  have htake : (st.rows.filter pendingRow).take 100 =
      st.rows.filter pendingRow := List.take_of_length_le hN
  have hrows : (check_and_repair (fun _ => true) st nowMs).2.rows =
      (st.rows.filter pendingRow).foldl
        (fun rows m => rows.map (repairUpd m nowMs)) st.rows := by
    unfold check_and_repair
    rw [repair_foldl_rows, htake]
    congr 1
  have hpend : ∀ r' ∈ (check_and_repair (fun _ => true) st nowMs).2.rows,
      pendingRow r' = false := by
    rw [hrows]
    exact repair_pending_elim nowMs (st.rows.filter pendingRow) st.rows
      (fun r hr hp => List.mem_map.mpr
        ⟨r, List.mem_filter.mpr ⟨hr, hp⟩, rfl⟩)
  refine ⟨?_, ?_, ?_, ?_, ?_, ?_, ?_⟩
  · rw [List.length_eq_zero, List.filter_eq_nil_iff]
    intro a ha
    simp [hpend a ha]
  · unfold check_and_repair
    rw [repair_foldl_repaired, htake]
    simp
  · unfold check_and_repair
    rw [repair_foldl_errors]
    simp
  · rw [hrows, repair_rowsFold_length nowMs
      (st.rows.filter pendingRow) st.rows]
  · unfold check_and_repair
    rw [repair_foldl_chroma_len, htake]
    simp
  · intro hbal
    unfold auditDiverged
    have hc : (check_and_repair (fun _ => true) st nowMs).2.chroma.length =
        st.chroma.length + (st.rows.filter pendingRow).length := by
      unfold check_and_repair
      rw [repair_foldl_chroma_len, htake]
      simp
    have hr : (check_and_repair (fun _ => true) st nowMs).2.rows.length =
        st.rows.length := by
      rw [hrows, repair_rowsFold_length nowMs
        (st.rows.filter pendingRow) st.rows]
    rw [hc, hr, hbal]
    simp
  · intro f
    constructor
    · unfold check_and_repair
      rw [repair_foldl_repaired]
      simp
    · unfold check_and_repair
      rw [repair_foldl_errors]
      simp

/-- Two pending rows (a NULL and an empty embedding id) in partition
(1, 1), with an empty collection that also lacks their entries. -/
def exPendingState : MemState :=
  { rows :=
      [{ id := 1, user_id := 1, chat_id := 1, role := "user",
         content := "primeira pendente", category := "geral",
         importance := 3, timestamp := 1000, embedding_id := none },
       { id := 2, user_id := 1, chat_id := 1, role := "assistant",
         content := "segunda pendente", category := "geral",
         importance := 3, timestamp := 2000, embedding_id := some "" }],
    nextId := 3,
    chroma := [] }

/-- Witness for C7: on the two-pending-row state with a healthy index, one
pass clears the pending set and repairs both rows. -/
theorem check_and_repair_convergence_witness :
    ((check_and_repair (fun _ => true) exPendingState 5000).2.rows.filter
      pendingRow).length = 0 ∧
    (check_and_repair (fun _ => true) exPendingState 5000).1.repaired = 2 := by
  have h := check_and_repair_convergence exPendingState 5000 (by decide)
  exact ⟨h.1, by rw [h.2.1]; decide⟩
